import Mathlib

/-!
Shallow embedding of the break-cycle state machine, overlay lifecycle
manager, rest escalation policy and drag controller of `src_rust/main.rs`
("are-you-blind").

Modelling conventions:
* `std::time::Duration` and `std::time::Instant` are whole numbers of
  milliseconds on a monotonic clock (`Nat`); `Duration::as_secs` truncates.
* slint `f32` logical coordinates and scale factors are rationals (`ℚ`);
  the arithmetic performed by the program is plain `+ - * /` on those.
* An overlay surface (`RestOverlayWindow`) is observed through the Overlay
  Presenter interface: its physical position, logical size, text fields and
  visibility.  `RestOverlayWindow::new()` is fallible; each call of
  `show_rest_overlay` performs a sequence of creation attempts, so the
  environment supplies a success predicate indexed by attempt number.
* The window's `scale_factor()` queried by `fit_overlay_to_monitor` is the
  scale factor of the monitor the surface has just been positioned on, as
  reported by the per-monitor-DPI-aware host.
-/

namespace AreYouBlind

/-!
Durations (`std::time::Duration`) and instants (`std::time::Instant`) are
whole numbers of milliseconds (`Nat`); instants count from an arbitrary
monotonic epoch.
-/

/-- `Duration::as_secs`: whole seconds, fractional part truncated. -/
def Duration.as_secs (d : Nat) : Nat := d / 1000

/-- `Duration::from_secs`. -/
def Duration.from_secs (s : Nat) : Nat := s * 1000

/-- `enum Mode { Work, Rest }` (main.rs:91). -/
inductive Mode
  | Work
  | Rest
deriving DecidableEq, Repr

/-- `enum RestType { EyeRest, Water, Walk }` (main.rs:97). -/
inductive RestType
  | EyeRest
  | Water
  | Walk
deriving DecidableEq, Repr

/-- `slint::LogicalPosition` with exact rational coordinates. -/
structure LogicalPosition where
  x : ℚ
  y : ℚ
deriving DecidableEq, Repr

/-- `struct MonitorRect` (main.rs:388): device-pixel geometry plus scale factor. -/
structure MonitorRect where
  x : Int
  y : Int
  width : Nat
  height : Nat
  scale_factor : ℚ
deriving DecidableEq, Repr

/-- A `RestOverlayWindow` as observable through the Overlay Presenter
interface: physical position, logical size, the three text properties and
visibility. -/
structure OverlaySurface where
  pos_x : Int
  pos_y : Int
  logical_width : ℚ
  logical_height : ℚ
  headline : String
  message : String
  countdown : String
  visible : Bool
deriving DecidableEq, Repr

/-- A freshly created `RestOverlayWindow` before any property is set. -/
def OverlaySurface.new : OverlaySurface :=
  { pos_x := 0, pos_y := 0, logical_width := 0, logical_height := 0,
    headline := "", message := "", countdown := "", visible := false }

/-- `struct OverlayWindowEntry` (main.rs:380): the surface handle together
with the monitor it was fitted to. -/
structure OverlayWindowEntry where
  window : OverlaySurface
  monitor : MonitorRect
deriving DecidableEq, Repr

/-- `struct AppState` (main.rs:74). -/
structure AppState where
  is_paused : Bool
  work_duration : Nat
  rest_duration : Nat
  water_interval : Nat
  walk_interval : Nat
  eye_rest_count : Nat
  current_mode : Mode
  current_rest_type : RestType
  start_time : Nat
  last_tick : Nat
  overlay_windows : List OverlayWindowEntry
  main_window_visible : Bool
  drag_anchor_window_pos : Option LogicalPosition
  drag_anchor_pointer_screen_pos : Option LogicalPosition
deriving Repr

/-- `impl Default for AppState` (main.rs:104), with `Instant::now()` at
startup being `now`. -/
def AppState.default (now : Nat) : AppState :=
  { is_paused := false
    work_duration := Duration.from_secs (20 * 60)
    rest_duration := Duration.from_secs 20
    water_interval := 2
    walk_interval := 3
    eye_rest_count := 0
    current_mode := Mode.Work
    current_rest_type := RestType.EyeRest
    start_time := now
    last_tick := now
    overlay_windows := []
    main_window_visible := true
    drag_anchor_window_pos := none
    drag_anchor_pointer_screen_pos := none }

/-- Rust `format!("\x7b:02\x7d", n)`: decimal representation zero-padded to a
minimum width of two. -/
def rustFmt02 (n : Nat) : String :=
  if n < 10 then "0" ++ Nat.repr n else Nat.repr n

/-- `format_duration_mm_ss` (main.rs:125). -/
def format_duration_mm_ss (duration : Nat) : String :=
  let secs_remaining := Duration.as_secs duration
  let mins := secs_remaining / 60
  let secs := secs_remaining % 60
  rustFmt02 mins ++ ":" ++ rustFmt02 secs

/-- The rest escalation policy inlined in the 100ms timer closure
(main.rs:800-806): walk takes priority over water over plain eye rest. -/
def rest_type_for (count walk_interval water_interval : Nat) : RestType :=
  if count % walk_interval == 0 then RestType.Walk
  else if count % water_interval == 0 then RestType.Water
  else RestType.EyeRest

/-- `fit_overlay_to_monitor` (main.rs:576): position the surface at the
monitor's device-pixel origin, then set its logical size to the monitor's
device size divided by the window's scale factor (clamped below at 0.1),
plus one logical pixel of rounding pad.  The window sits on `entry.monitor`,
so the host reports that monitor's scale factor. -/
def fit_overlay_to_monitor (entry : OverlayWindowEntry) : OverlayWindowEntry :=
  let scale_factor : ℚ := max entry.monitor.scale_factor (1 / 10)
  { entry with window :=
    { entry.window with
      pos_x := entry.monitor.x
      pos_y := entry.monitor.y
      logical_width := (entry.monitor.width : ℚ) / scale_factor + 1
      logical_height := (entry.monitor.height : ℚ) / scale_factor + 1 } }

/-- Environment of one `show_rest_overlay` call: the snapshot returned by
`monitor_rects()`, whether the n-th `RestOverlayWindow::new()` attempt of
the call succeeds, and the raw `GetSystemMetrics` virtual-screen metrics. -/
structure OverlayEnv where
  monitors : List MonitorRect
  createOk : Nat → Bool
  virtual_x : Int
  virtual_y : Int
  virtual_cx : Int
  virtual_cy : Int

/-- `virtual_screen_rect` (main.rs:591): best-effort full-virtual-desktop
rectangle; width and height are clamped to at least 1, scale factor 1.0. -/
def virtual_screen_rect (env : OverlayEnv) : MonitorRect :=
  { x := env.virtual_x
    y := env.virtual_y
    width := (max env.virtual_cx 1).toNat
    height := (max env.virtual_cy 1).toNat
    scale_factor := 1 }

/-- The per-monitor creation loop of `show_rest_overlay` (main.rs:629-641):
one creation attempt per monitor, in order; a failed attempt skips that
monitor; each created entry is fitted to its monitor. -/
def build_overlay_entries (createOk : Nat → Bool) :
    Nat → List MonitorRect → List OverlayWindowEntry
  | _, [] => []
  | i, m :: rest =>
    if createOk i then
      fit_overlay_to_monitor { window := OverlaySurface.new, monitor := m }
        :: build_overlay_entries createOk (i + 1) rest
    else
      build_overlay_entries createOk (i + 1) rest

/-- The final presentation loop of `show_rest_overlay` (main.rs:682-696):
set headline, message and countdown, fit, show, fit again, request redraw. -/
def present_overlay_entry (headline message countdown : String)
    (e : OverlayWindowEntry) : OverlayWindowEntry :=
  let e := { e with window :=
    { e.window with headline := headline, message := message, countdown := countdown } }
  let e := fit_overlay_to_monitor e
  let e := { e with window := { e.window with visible := true } }
  fit_overlay_to_monitor e

/-- `show_rest_overlay` (main.rs:619), Windows branch.  Discards all live
overlays, attempts one creation per monitor (skipping failures), and if no
entry was created makes one fallback attempt fitted to the first enumerated
monitor, or to the virtual-screen rectangle when enumeration returned no
monitors.  Every surviving entry then gets the texts set and is shown. -/
def show_rest_overlay (env : OverlayEnv) (s : AppState) (remaining : Nat)
    (headline message : String) : AppState :=
  let countdown := format_duration_mm_ss remaining
  let built := build_overlay_entries env.createOk 0 env.monitors
  let entries :=
    if built.isEmpty then
      if env.createOk env.monitors.length then
        let monitor := env.monitors.headD (virtual_screen_rect env)
        [fit_overlay_to_monitor { window := OverlaySurface.new, monitor := monitor }]
      else []
    else built
  { s with overlay_windows := entries.map (present_overlay_entry headline message countdown) }

/-- `update_rest_overlay` (main.rs:699): early return when no overlay is
live; otherwise push the refreshed countdown to every overlay and re-fit. -/
def update_rest_overlay (s : AppState) (remaining : Nat) : AppState :=
  if s.overlay_windows.isEmpty then s
  else
    let countdown := format_duration_mm_ss remaining
    { s with overlay_windows := s.overlay_windows.map (fun e =>
        fit_overlay_to_monitor { e with window := { e.window with countdown := countdown } }) }

/-- `hide_rest_overlay` (main.rs:715): hide every live overlay and clear
the collection, dropping the handles. -/
def hide_rest_overlay (s : AppState) : AppState :=
  { s with overlay_windows := [] }

/-- Environment of one 100ms timer tick: the overlay environment plus the
randomly chosen reminder texts (the message pool and RNG are external to
the core). -/
structure TickEnv where
  overlay : OverlayEnv
  eye_headline : String
  eye_message : String
  water_message : String
  walk_message : String

/-- The 100ms timer closure (main.rs:768-862), at tick instant `now`.
Paused: advance `start_time` by the wall-clock time since `last_tick` and
record the tick.  Running: if `elapsed >= limit`, perform the mode
transition with its side effects; otherwise the self-loop pushes the new
countdown to live overlays while resting. -/
def timer_tick (env : TickEnv) (now : Nat) (s : AppState) : AppState :=
  if s.is_paused then
    let paused_for := now - s.last_tick
    { s with start_time := s.start_time + paused_for, last_tick := now }
  else
    let s := { s with last_tick := now }
    let elapsed := now - s.start_time
    let limit :=
      match s.current_mode with
      | Mode.Work => s.work_duration
      | Mode.Rest => s.rest_duration
    if limit ≤ elapsed then
      let s := { s with start_time := now }
      match s.current_mode with
      | Mode.Work =>
        let s := { s with current_mode := Mode.Rest, eye_rest_count := s.eye_rest_count + 1 }
        let rest_duration := s.rest_duration
        let count := s.eye_rest_count
        let s := { s with
          current_rest_type := rest_type_for count s.walk_interval s.water_interval }
        let message :=
          match s.current_rest_type with
          | RestType.Water => env.eye_message ++ "\n\n💧 顺便提醒：" ++ env.water_message
          | RestType.Walk => env.eye_message ++ "\n\n🚶 顺便提醒：" ++ env.walk_message
          | RestType.EyeRest => env.eye_message
        show_rest_overlay env.overlay s rest_duration env.eye_headline message
      | Mode.Rest =>
        let s := { s with current_mode := Mode.Work }
        let s := hide_rest_overlay s
        { s with main_window_visible := true }
    else
      let remaining := limit - elapsed
      if s.current_mode = Mode.Rest then update_rest_overlay s remaining else s

/-- `on_toggle_timer` callback (main.rs:903). -/
def on_toggle_timer (s : AppState) : AppState :=
  { s with is_paused := !s.is_paused }

/-- `on_secondary_action` callback (main.rs:914): reset `start_time`; in
Work mode nothing else changes; in Rest mode force the transition to Work,
discard all overlays and re-show the main window. -/
def on_secondary_action (now : Nat) (s : AppState) : AppState :=
  let s := { s with start_time := now }
  match s.current_mode with
  | Mode.Work => s
  | Mode.Rest =>
    let s := { s with current_mode := Mode.Work }
    let s := hide_rest_overlay s
    { s with main_window_visible := true }

/-- `on_apply_work_minutes` callback (main.rs:939): clamp to 1..180 minutes;
while in Work mode also rebase `start_time` and `last_tick`. -/
def on_apply_work_minutes (now : Nat) (minutes : Int) (s : AppState) : AppState :=
  let minutes := max 1 (min minutes 180)
  let s := { s with work_duration := Duration.from_secs (minutes.toNat * 60) }
  if s.current_mode = Mode.Work then
    { s with start_time := now, last_tick := now }
  else s

/-- `on_apply_rest_seconds` callback (main.rs:961): clamp to 5..300 seconds. -/
def on_apply_rest_seconds (seconds : Int) (s : AppState) : AppState :=
  let seconds := max 5 (min seconds 300)
  { s with rest_duration := Duration.from_secs seconds.toNat }

/-- `on_apply_water_interval` callback (main.rs:974): clamp to 1..20. -/
def on_apply_water_interval (interval : Int) (s : AppState) : AppState :=
  let interval := max 1 (min interval 20)
  { s with water_interval := interval.toNat }

/-- `on_apply_walk_interval` callback (main.rs:987): clamp to 1..20. -/
def on_apply_walk_interval (interval : Int) (s : AppState) : AppState :=
  let interval := max 1 (min interval 20)
  { s with walk_interval := interval.toNat }

/-- `on_start_window_drag` callback (main.rs:1000): capture the window's
logical position and the pointer's absolute logical screen position
(window position plus local pointer offset) as the drag anchor. -/
def on_start_window_drag (window_pos position : LogicalPosition) (s : AppState) : AppState :=
  let pointer_screen_pos : LogicalPosition :=
    { x := window_pos.x + position.x, y := window_pos.y + position.y }
  { s with
    drag_anchor_window_pos := some window_pos
    drag_anchor_pointer_screen_pos := some pointer_screen_pos }

/-- `on_update_window_drag` callback (main.rs:1017): recompute the pointer's
absolute logical screen position, and move the window to the anchored window
position plus the pointer delta.  Returns the new window position, or `none`
when the drag anchor is absent (the callback is a no-op then). -/
def on_update_window_drag (window_pos position : LogicalPosition) (s : AppState) :
    Option LogicalPosition :=
  let pointer_screen_pos : LogicalPosition :=
    { x := window_pos.x + position.x, y := window_pos.y + position.y }
  match s.drag_anchor_window_pos with
  | none => none
  | some anchor_window_pos =>
    match s.drag_anchor_pointer_screen_pos with
    | none => none
    | some anchor_pointer_screen_pos =>
      let delta_x := pointer_screen_pos.x - anchor_pointer_screen_pos.x
      let delta_y := pointer_screen_pos.y - anchor_pointer_screen_pos.y
      some { x := anchor_window_pos.x + delta_x, y := anchor_window_pos.y + delta_y }

/-- `on_end_window_drag` callback (main.rs:1044): clear the drag anchor. -/
def on_end_window_drag (s : AppState) : AppState :=
  { s with drag_anchor_window_pos := none, drag_anchor_pointer_screen_pos := none }

/-- `on_minimize_to_tray` callback (main.rs:1053). -/
def on_minimize_to_tray (s : AppState) : AppState :=
  { s with main_window_visible := false }

/-- Tray menu / tray icon "show window" handling (main.rs:871-897). -/
def on_tray_show_window (s : AppState) : AppState :=
  { s with main_window_visible := true }

/-- One event on the single-threaded event loop: a clock tick or any
user-initiated callback that mutates `AppState`. -/
inductive Event
  | tick (env : TickEnv) (now : Nat)
  | toggleTimer
  | secondaryAction (now : Nat)
  | applyWorkMinutes (now : Nat) (minutes : Int)
  | applyRestSeconds (seconds : Int)
  | applyWaterInterval (interval : Int)
  | applyWalkInterval (interval : Int)
  | startWindowDrag (window_pos position : LogicalPosition)
  | endWindowDrag
  | minimizeToTray
  | trayShowWindow

/-- Event dispatch: how each event mutates the shared `AppState`.
(`on_update_window_drag` only moves the window; it borrows the state
immutably and never mutates it, so it has no case here.) -/
def step (s : AppState) : Event → AppState
  | Event.tick env now => timer_tick env now s
  | Event.toggleTimer => on_toggle_timer s
  | Event.secondaryAction now => on_secondary_action now s
  | Event.applyWorkMinutes now minutes => on_apply_work_minutes now minutes s
  | Event.applyRestSeconds seconds => on_apply_rest_seconds seconds s
  | Event.applyWaterInterval interval => on_apply_water_interval interval s
  | Event.applyWalkInterval interval => on_apply_walk_interval interval s
  | Event.startWindowDrag wp p => on_start_window_drag wp p s
  | Event.endWindowDrag => on_end_window_drag s
  | Event.minimizeToTray => on_minimize_to_tray s
  | Event.trayShowWindow => on_tray_show_window s

/-- Run a sequence of events from a state. -/
def run (s : AppState) (evs : List Event) : AppState :=
  evs.foldl step s

/-- Run a sequence of clock ticks at the given instants. -/
def run_ticks (env : TickEnv) (s : AppState) (times : List Nat) : AppState :=
  times.foldl (fun st t => timer_tick env t st) s

/-- Modelled from the spec: zero-pad a decimal string to a minimum width of
two characters ("always `MM:SS`, zero-padded"). -/
def zero_pad_two (t : String) : String :=
  if t.length < 2 then "0" ++ t else t

/-- Modelled from the spec: the countdown text derived from the whole
seconds remaining, "minutes = total whole seconds div 60, seconds = total
whole seconds mod 60", each zero-padded. -/
def mm_ss_of_secs (total : Nat) : String :=
  zero_pad_two (Nat.repr (total / 60)) ++ ":" ++ zero_pad_two (Nat.repr (total % 60))

/-! Concrete environments used to exercise the definitions on explicit
inputs. -/

/-- A monitor whose scale factor is below the 0.1 clamp of
`fit_overlay_to_monitor`. -/
def tinyScaleMonitor : MonitorRect :=
  { x := 0, y := 0, width := 1000, height := 500, scale_factor := 1 / 20 }

/-- Overlay environment with the single tiny-scale monitor; every creation
attempt succeeds. -/
def tinyScaleEnv : OverlayEnv :=
  { monitors := [tinyScaleMonitor]
    createOk := fun _ => true
    virtual_x := 0
    virtual_y := 0
    virtual_cx := 1000
    virtual_cy := 500 }

/-- Three monitors with distinct origins, sizes and scale factors. -/
def monitorA : MonitorRect :=
  { x := 0, y := 0, width := 1920, height := 1080, scale_factor := 1 }

def monitorB : MonitorRect :=
  { x := 1920, y := 0, width := 2560, height := 1440, scale_factor := 3 / 2 }

def monitorC : MonitorRect :=
  { x := -1280, y := 100, width := 1280, height := 800, scale_factor := 2 }

/-- Overlay environment with the three distinct monitors; every creation
attempt succeeds. -/
def threeMonitorEnv : OverlayEnv :=
  { monitors := [monitorA, monitorB, monitorC]
    createOk := fun _ => true
    virtual_x := -1280
    virtual_y := 0
    virtual_cx := 4480
    virtual_cy := 1440 }

/-- Overlay environment with one monitor whose creation attempt fails while
the subsequent fallback attempt succeeds; the virtual-screen metrics
describe a strictly larger desktop than that monitor. -/
def failFirstEnv : OverlayEnv :=
  { monitors := [monitorA]
    createOk := fun i => decide (0 < i)
    virtual_x := -100
    virtual_y := -100
    virtual_cx := 3000
    virtual_cy := 2000 }

/-- A tick environment with no reachable monitor and empty reminder texts. -/
def quietTickEnv : TickEnv :=
  { overlay :=
      { monitors := []
        createOk := fun _ => false
        virtual_x := 0
        virtual_y := 0
        virtual_cx := 1920
        virtual_cy := 1080 }
    eye_headline := ""
    eye_message := ""
    water_message := ""
    walk_message := "" }

/-- A paused state: the default state five milliseconds after a tick, with
the pause toggled on. -/
def pausedExample : AppState :=
  { AppState.default 0 with is_paused := true, last_tick := 5 }

/-- A tick environment with one monitor on which creation succeeds. -/
def oneMonitorTickEnv : TickEnv :=
  { overlay :=
      { monitors := [monitorA]
        createOk := fun _ => true
        virtual_x := 0
        virtual_y := 0
        virtual_cx := 1920
        virtual_cy := 1080 }
    eye_headline := "👀 护眼时间"
    eye_message := "休息 20 秒，保护视力"
    water_message := "起来喝杯水吧（20 秒）"
    walk_message := "站起来活动一下身体（20 秒）" }

end AreYouBlind

namespace AreYouBlind

/-! ### Helper lemmas -/

theorem toDigitsCore_length_lb (b : Nat) :
    ∀ (f n : Nat) (l : List Char), 0 < f →
      l.length + 1 ≤ (Nat.toDigitsCore b f n l).length := by
  intro f
  induction f with
  | zero => intro n l h; omega
  | succ f ih =>
    intro n l _
    simp only [Nat.toDigitsCore]
    by_cases h : n / b = 0
    · rw [if_pos h]; simp
    · rw [if_neg h]
      cases f with
      | zero => simp [Nat.toDigitsCore]
      | succ f2 =>
        have h2 := ih (n / b) (Nat.digitChar (n % b) :: l) (Nat.succ_pos f2)
        simp only [List.length_cons] at h2
        omega

theorem repr_length_ge_two (n : Nat) (h : 10 ≤ n) : 2 ≤ (Nat.repr n).length := by
  simp only [Nat.repr, Nat.toDigits, String.length, List.asString]
  simp only [Nat.toDigitsCore]
  have hnb : ¬ n / 10 = 0 := by omega
  rw [if_neg hnb]
  have h2 := toDigitsCore_length_lb 10 n (n / 10) [Nat.digitChar (n % 10)] (by omega)
  simpa using h2

theorem repr_length_small : ∀ m, m < 10 → (Nat.repr m).length = 1 := by decide

theorem rustFmt02_eq_zero_pad (n : Nat) : rustFmt02 n = zero_pad_two (Nat.repr n) := by
  by_cases h : n < 10
  · rw [rustFmt02, if_pos h, zero_pad_two, if_pos (by rw [repr_length_small n h]; omega)]
  · rw [rustFmt02, if_neg h, zero_pad_two,
      if_neg (by have := repr_length_ge_two n (by omega); omega)]

theorem timer_tick_work_to_rest (env : TickEnv) (now : Nat) (s : AppState)
    (hp : s.is_paused = false) (hm : s.current_mode = Mode.Work)
    (hl : s.work_duration ≤ now - s.start_time) :
    (timer_tick env now s).current_mode = Mode.Rest ∧
    (timer_tick env now s).eye_rest_count = s.eye_rest_count + 1 ∧
    (timer_tick env now s).current_rest_type
      = rest_type_for (s.eye_rest_count + 1) s.walk_interval s.water_interval := by
  simp [timer_tick, hp, hm, hl, show_rest_overlay]

/-! ### Claims -/

/-- C1: at a Work→Rest transition, for positive configured intervals, the
rest escalation policy selects Walk when `count mod walk_interval = 0`,
else Water when `count mod water_interval = 0`, else EyeRest; count 6 with
intervals (3, 2) yields Walk, count 4 yields Water, and count 1 with any
intervals ≥ 2 yields EyeRest; the timer tick stores exactly this selection
for the incremented counter. -/
theorem rest_escalation_policy_correct (count wk wa : Nat)
    (hwalk : 0 < wk) (hwater : 0 < wa) :
    (rest_type_for count wk wa =
      if count % wk = 0 then RestType.Walk
      else if count % wa = 0 then RestType.Water
      else RestType.EyeRest) ∧
    rest_type_for 6 3 2 = RestType.Walk ∧
    rest_type_for 4 3 2 = RestType.Water ∧
    (∀ wk2 wa2, 2 ≤ wk2 → 2 ≤ wa2 → rest_type_for 1 wk2 wa2 = RestType.EyeRest) ∧
    (∀ env now s, s.is_paused = false → s.current_mode = Mode.Work →
      s.work_duration ≤ now - s.start_time →
      (timer_tick env now s).current_rest_type
        = rest_type_for (s.eye_rest_count + 1) s.walk_interval s.water_interval) := by
  refine ⟨?_, by decide, by decide, ?_, ?_⟩
  · by_cases h1 : count % wk = 0 <;> by_cases h2 : count % wa = 0 <;>
      simp [rest_type_for, h1, h2]
  · intro wk2 wa2 hwk2 hwa2
    have e1 : (1 : Nat) % wk2 = 1 := Nat.mod_eq_of_lt (by omega)
    have e2 : (1 : Nat) % wa2 = 1 := Nat.mod_eq_of_lt (by omega)
    simp [rest_type_for, e1, e2]
  · intro env now s hp hm hl
    exact (timer_tick_work_to_rest env now s hp hm hl).2.2

/-- C1 witness at count 6, intervals walk 3, water 2, and the EyeRest case
at (1, 2, 2). -/
theorem rest_escalation_policy_correct_witness :
    (0 : Nat) < 3 ∧ (0 : Nat) < 2 ∧
    rest_type_for 6 3 2 = RestType.Walk ∧
    rest_type_for 1 2 2 = RestType.EyeRest :=
  ⟨by decide, by decide,
    (rest_escalation_policy_correct 6 3 2 (by decide) (by decide)).2.1,
    (rest_escalation_policy_correct 6 3 2 (by decide) (by decide)).2.2.2.1 2 2
      (by decide) (by decide)⟩

/-- C5: the manual secondary action resets `start_time` to the current
instant; in Work mode nothing else changes (the work countdown restarts);
in Rest mode it forces `mode = Work` and clears all live overlays without
consulting the elapsed time; `eye_rest_count` is unchanged in both cases. -/
theorem secondary_action_behavior (now : Nat) (s : AppState) :
    (on_secondary_action now s).start_time = now ∧
    (on_secondary_action now s).eye_rest_count = s.eye_rest_count ∧
    (s.current_mode = Mode.Work →
      on_secondary_action now s = { s with start_time := now }) ∧
    (s.current_mode = Mode.Rest →
      (on_secondary_action now s).current_mode = Mode.Work ∧
      (on_secondary_action now s).overlay_windows = []) := by
  rcases hm : s.current_mode <;>
    simp [on_secondary_action, hide_rest_overlay, hm]

/-- C5 witness: in Work mode only `start_time` changes; in Rest mode the
transition to Work is forced and the overlays are discarded. -/
theorem secondary_action_behavior_witness :
    (AppState.default 0).current_mode = Mode.Work ∧
    on_secondary_action 5 (AppState.default 0)
      = { AppState.default 0 with start_time := 5 } ∧
    ({ AppState.default 0 with current_mode := Mode.Rest } : AppState).current_mode
      = Mode.Rest ∧
    (on_secondary_action 7
      { AppState.default 0 with current_mode := Mode.Rest }).current_mode = Mode.Work ∧
    (on_secondary_action 7
      { AppState.default 0 with current_mode := Mode.Rest }).overlay_windows = [] :=
  ⟨rfl,
    (secondary_action_behavior 5 (AppState.default 0)).2.2.1 rfl,
    rfl,
    ((secondary_action_behavior 7
      { AppState.default 0 with current_mode := Mode.Rest }).2.2.2 rfl).1,
    ((secondary_action_behavior 7
      { AppState.default 0 with current_mode := Mode.Rest }).2.2.2 rfl).2⟩

/-- C6: the countdown text is always the zero-padded `MM:SS` rendering of
the whole seconds remaining (fractional milliseconds truncated by
`d / 1000`), with minutes `div 60` and seconds `mod 60`. -/
theorem countdown_text_mm_ss (d : Nat) :
    format_duration_mm_ss d = mm_ss_of_secs (d / 1000) ∧
    Duration.as_secs d = d / 1000 :=
  ⟨by simp [format_duration_mm_ss, mm_ss_of_secs, rustFmt02_eq_zero_pad, Duration.as_secs],
    rfl⟩

/-- C8: `hide_rest_overlay` leaves zero live overlays, is safe on an empty
set, and is idempotent. -/
theorem hide_rest_overlay_idempotent (s : AppState) :
    (hide_rest_overlay s).overlay_windows = [] ∧
    hide_rest_overlay (hide_rest_overlay s) = hide_rest_overlay s ∧
    (hide_rest_overlay (hide_rest_overlay s)).overlay_windows = [] :=
  ⟨rfl, rfl, rfl⟩

/-- C10: when no overlay is live, `update_rest_overlay` returns the state
unchanged. -/
theorem update_rest_overlay_noop_when_empty (s : AppState) (remaining : Nat)
    (h : s.overlay_windows = []) :
    update_rest_overlay s remaining = s := by
  simp [update_rest_overlay, h]

/-- C10 witness: updating with zero live overlays is the identity. -/
theorem update_rest_overlay_noop_when_empty_witness :
    (AppState.default 0).overlay_windows = [] ∧
    update_rest_overlay (AppState.default 0) 5000 = AppState.default 0 :=
  ⟨rfl, update_rest_overlay_noop_when_empty (AppState.default 0) 5000 rfl⟩

/-- C7: drag-update moves the window to the anchored window position plus
the delta between the current pointer screen position (current window
position plus local offset) and the anchored pointer screen position; with
no anchor set it is a no-op. -/
theorem drag_update_behavior (window_pos position : LogicalPosition) (s : AppState) :
    (s.drag_anchor_window_pos = none ∨ s.drag_anchor_pointer_screen_pos = none →
      on_update_window_drag window_pos position s = none) ∧
    (∀ aw ap, s.drag_anchor_window_pos = some aw →
      s.drag_anchor_pointer_screen_pos = some ap →
      on_update_window_drag window_pos position s =
        some { x := aw.x + ((window_pos.x + position.x) - ap.x),
               y := aw.y + ((window_pos.y + position.y) - ap.y) }) := by
  constructor
  · rintro (h | h) <;> simp [on_update_window_drag, h]
    rcases hw : s.drag_anchor_window_pos <;> simp
  · intro aw ap hw hp
    simp [on_update_window_drag, hw, hp]

/-- C7 witness: anchor at window (100,100) with local offset (10,10), then
update at local offset (15,20) moves the window to (105,110); with no
anchor the update is a no-op. -/
theorem drag_update_behavior_witness :
    on_update_window_drag { x := 100, y := 100 } { x := 15, y := 20 }
      (on_start_window_drag { x := 100, y := 100 } { x := 10, y := 10 }
        (AppState.default 0)) = some { x := 105, y := 110 } ∧
    on_update_window_drag { x := 100, y := 100 } { x := 15, y := 20 }
      (AppState.default 0) = none := by
  constructor
  · have h := (drag_update_behavior { x := 100, y := 100 } { x := 15, y := 20 }
      (on_start_window_drag { x := 100, y := 100 } { x := 10, y := 10 }
        (AppState.default 0))).2
      { x := 100, y := 100 } { x := (100 : ℚ) + 10, y := (100 : ℚ) + 10 } rfl rfl
    rw [h]
    norm_num
  · exact (drag_update_behavior { x := 100, y := 100 } { x := 15, y := 20 }
      (AppState.default 0)).1 (Or.inl rfl)

end AreYouBlind

namespace AreYouBlind

theorem getLastD_cons_eq (a d : Nat) (l : List Nat) :
    (a :: l).getLastD d = l.getLastD a := by
  cases l <;> simp [List.getLastD]

theorem chain_le_getLastD :
    ∀ (l : List Nat) (a : Nat), List.Chain' (· ≤ ·) (a :: l) → a ≤ l.getLastD a := by
  intro l
  induction l with
  | nil => intro a _; simp [List.getLastD]
  | cons b bs ih =>
    intro a h
    obtain ⟨hab, ht⟩ := List.chain'_cons.mp h
    rw [getLastD_cons_eq]
    exact le_trans hab (ih b ht)

theorem timer_tick_paused (env : TickEnv) (now : Nat) (s : AppState)
    (hp : s.is_paused = true) :
    timer_tick env now s =
      { s with start_time := s.start_time + (now - s.last_tick), last_tick := now } := by
  simp [timer_tick, hp]

theorem run_ticks_paused (env : TickEnv) :
    ∀ (times : List Nat) (s : AppState), s.is_paused = true →
      s.start_time ≤ s.last_tick → List.Chain' (· ≤ ·) (s.last_tick :: times) →
      run_ticks env s times =
        { s with start_time := s.start_time + (times.getLastD s.last_tick - s.last_tick)
                 last_tick := times.getLastD s.last_tick } := by
  intro times
  induction times with
  | nil =>
    intro s _ _ _
    cases s
    simp [run_ticks, List.getLastD]
  | cons t ts ih =>
    intro s hp hst hchain
    obtain ⟨hab, htail⟩ := List.chain'_cons.mp hchain
    have hab2 : s.last_tick ≤ t := hab
    have step1 : run_ticks env s (t :: ts) = run_ticks env (timer_tick env t s) ts := rfl
    rw [step1, timer_tick_paused env t s hp]
    have hlast : t ≤ ts.getLastD t := chain_le_getLastD ts t htail
    rw [ih { s with start_time := s.start_time + (t - s.last_tick), last_tick := t }
      hp (by simp; omega) (by simpa using htail)]
    rw [getLastD_cons_eq]
    simp only [AppState.mk.injEq, and_true, true_and]
    omega

/-- C2: while paused, every clock tick advances `start_time` by exactly the
wall-clock time elapsed since `last_tick`, records the tick, and changes no
other field; hence over any monotone sequence of paused ticks the elapsed
time measured at the latest tick (`last_tick - start_time`) is exactly what
it was at the moment of pausing, so it is unchanged within one tick
interval of tolerance. -/
theorem paused_ticks_freeze_elapsed (env : TickEnv) (s : AppState) (times : List Nat)
    (hp : s.is_paused = true) (hst : s.start_time ≤ s.last_tick)
    (hchain : List.Chain' (· ≤ ·) (s.last_tick :: times)) :
    (∀ now, timer_tick env now s =
      { s with start_time := s.start_time + (now - s.last_tick), last_tick := now }) ∧
    run_ticks env s times =
      { s with start_time := s.start_time + (times.getLastD s.last_tick - s.last_tick)
               last_tick := times.getLastD s.last_tick } ∧
    (run_ticks env s times).last_tick - (run_ticks env s times).start_time
      = s.last_tick - s.start_time := by
  have hrun := run_ticks_paused env times s hp hst hchain
  refine ⟨fun now => timer_tick_paused env now s hp, hrun, ?_⟩
  rw [hrun]
  have hle : s.last_tick ≤ times.getLastD s.last_tick := chain_le_getLastD times s.last_tick hchain
  simp only []
  omega

/-- C2 witness: pausing at tick instant 5 and ticking at instants 7 and 12
advances `start_time` to 7 and leaves the elapsed reading at 5
milliseconds, exactly the elapsed at the moment of pausing. -/
theorem paused_ticks_freeze_elapsed_witness :
    pausedExample.is_paused = true ∧
    pausedExample.start_time ≤ pausedExample.last_tick ∧
    List.Chain' (· ≤ ·) (pausedExample.last_tick :: [7, 12]) ∧
    run_ticks quietTickEnv pausedExample [7, 12]
      = { pausedExample with start_time := 7, last_tick := 12 } ∧
    (run_ticks quietTickEnv pausedExample [7, 12]).last_tick
        - (run_ticks quietTickEnv pausedExample [7, 12]).start_time
      = pausedExample.last_tick - pausedExample.start_time := by
  have hchain : List.Chain' (· ≤ ·) (pausedExample.last_tick :: [7, 12]) := by
    simp [pausedExample, AppState.default, List.chain'_cons]
  refine ⟨rfl, by decide, hchain, ?_, ?_⟩
  · have h := (paused_ticks_freeze_elapsed quietTickEnv pausedExample [7, 12]
      rfl (by decide) hchain).2.1
    rw [h]
    rfl
  · exact (paused_ticks_freeze_elapsed quietTickEnv pausedExample [7, 12]
      rfl (by decide) hchain).2.2


theorem fit_monitor_eq (e : OverlayWindowEntry) :
    (fit_overlay_to_monitor e).monitor = e.monitor := rfl

theorem present_monitor_eq (hd ms cd : String) (e : OverlayWindowEntry) :
    (present_overlay_entry hd ms cd e).monitor = e.monitor := rfl

theorem present_window_eq (hd ms cd : String) (e : OverlayWindowEntry) :
    (present_overlay_entry hd ms cd e).window =
      { pos_x := e.monitor.x
        pos_y := e.monitor.y
        logical_width := (e.monitor.width : ℚ) / max e.monitor.scale_factor (1 / 10) + 1
        logical_height := (e.monitor.height : ℚ) / max e.monitor.scale_factor (1 / 10) + 1
        headline := hd
        message := ms
        countdown := cd
        visible := true } := rfl

theorem build_entries_monitors (ok : Nat → Bool) :
    ∀ (ms : List MonitorRect) (k : Nat),
      (build_overlay_entries ok k ms).map (fun e => e.monitor)
        = ((List.enumFrom k ms).filter (fun p => ok p.fst)).map Prod.snd := by
  intro ms
  induction ms with
  | nil => intro k; simp [build_overlay_entries]
  | cons m rest ih =>
    intro k
    have henum : List.enumFrom k (m :: rest) = (k, m) :: List.enumFrom (k + 1) rest := rfl
    rw [henum, List.filter_cons]
    by_cases h : ok k
    · simp [build_overlay_entries, h, ih, fit_monitor_eq]
    · simp [build_overlay_entries, h, ih]

theorem build_entries_ne_nil (ok : Nat → Bool) :
    ∀ (ms : List MonitorRect) (k : Nat), (∃ i, i < ms.length ∧ ok (k + i) = true) →
      build_overlay_entries ok k ms ≠ [] := by
  intro ms
  induction ms with
  | nil =>
    intro k h
    obtain ⟨i, hi, _⟩ := h
    simp at hi
  | cons m rest ih =>
    intro k h
    by_cases hk : ok k = true
    · simp [build_overlay_entries, hk]
    · obtain ⟨i, hi, hoki⟩ := h
      have hrec : build_overlay_entries ok k (m :: rest)
          = build_overlay_entries ok (k + 1) rest := by
        simp [build_overlay_entries, hk]
      rw [hrec]
      cases i with
      | zero => exact absurd (by simpa using hoki) hk
      | succ j =>
        refine ih (k + 1) ⟨j, by simpa using hi, ?_⟩
        have harith : k + 1 + j = k + (j + 1) := by omega
        rw [harith]
        exact hoki

theorem build_entries_all_fail (ok : Nat → Bool) :
    ∀ (ms : List MonitorRect) (k : Nat), (∀ i, i < ms.length → ok (k + i) = false) →
      build_overlay_entries ok k ms = [] := by
  intro ms
  induction ms with
  | nil => intro k _; rfl
  | cons m rest ih =>
    intro k h
    have hk : ok k = false := by simpa using h 0 (by simp)
    have hrec : build_overlay_entries ok k (m :: rest)
        = build_overlay_entries ok (k + 1) rest := by
      simp [build_overlay_entries, hk]
    rw [hrec]
    refine ih (k + 1) fun i hi => ?_
    have harith : k + 1 + i = k + (i + 1) := by omega
    rw [harith]
    exact h (i + 1) (by simpa using hi)

theorem build_entries_mem (ok : Nat → Bool) :
    ∀ (ms : List MonitorRect) (k : Nat) (e : OverlayWindowEntry),
      e ∈ build_overlay_entries ok k ms →
      e.monitor ∈ ms ∧
      e = fit_overlay_to_monitor { window := OverlaySurface.new, monitor := e.monitor } := by
  intro ms
  induction ms with
  | nil => intro k e h; simp [build_overlay_entries] at h
  | cons m rest ih =>
    intro k e h
    by_cases hk : ok k = true
    · simp only [build_overlay_entries, hk, if_true, List.mem_cons] at h
      rcases h with h | h
      · subst h
        refine ⟨by simp [fit_monitor_eq], rfl⟩
      · obtain ⟨h1, h2⟩ := ih (k + 1) e h
        exact ⟨List.mem_cons_of_mem m h1, h2⟩
    · rw [show build_overlay_entries ok k (m :: rest)
          = build_overlay_entries ok (k + 1) rest by simp [build_overlay_entries, hk]] at h
      obtain ⟨h1, h2⟩ := ih (k + 1) e h
      exact ⟨List.mem_cons_of_mem m h1, h2⟩

theorem show_overlay_windows_of_success (env : OverlayEnv) (s : AppState)
    (remaining : Nat) (hd ms : String)
    (hsucc : ∃ i, i < env.monitors.length ∧ env.createOk i = true) :
    (show_rest_overlay env s remaining hd ms).overlay_windows
      = (build_overlay_entries env.createOk 0 env.monitors).map
          (present_overlay_entry hd ms (format_duration_mm_ss remaining)) := by
  have hne := build_entries_ne_nil env.createOk env.monitors 0 (by simpa using hsucc)
  unfold show_rest_overlay
  simp only []
  rw [if_neg (by simpa [List.isEmpty_iff] using hne)]

theorem show_overlay_windows_all_fail (env : OverlayEnv) (s : AppState)
    (remaining : Nat) (hd ms : String)
    (hfail : ∀ i, i < env.monitors.length → env.createOk i = false) :
    (show_rest_overlay env s remaining hd ms).overlay_windows
      = if env.createOk env.monitors.length
        then [present_overlay_entry hd ms (format_duration_mm_ss remaining)
               (fit_overlay_to_monitor
                 { window := OverlaySurface.new
                   monitor := env.monitors.headD (virtual_screen_rect env) })]
        else [] := by
  have hbuilt : build_overlay_entries env.createOk 0 env.monitors = [] :=
    build_entries_all_fail env.createOk env.monitors 0 (by simpa using hfail)
  unfold show_rest_overlay
  simp only []
  rw [hbuilt]
  by_cases h : env.createOk env.monitors.length = true <;> simp [h]


theorem show_overlay_monitors_of_success (env : OverlayEnv) (s : AppState)
    (remaining : Nat) (hd ms : String)
    (hsucc : ∃ i, i < env.monitors.length ∧ env.createOk i = true) :
    (show_rest_overlay env s remaining hd ms).overlay_windows.map (fun e => e.monitor)
      = ((List.enumFrom 0 env.monitors).filter (fun p => env.createOk p.fst)).map Prod.snd := by
  rw [show_overlay_windows_of_success env s remaining hd ms hsucc, List.map_map,
    show ((fun e => OverlayWindowEntry.monitor e)
        ∘ present_overlay_entry hd ms (format_duration_mm_ss remaining))
      = fun e => e.monitor from funext fun e => present_monitor_eq hd ms _ e,
    build_entries_monitors]

/-- C3 (amended): for any monitor snapshot in which at least one overlay
creation succeeds, `show_rest_overlay` (whose result never depends on the
previously live overlays, which are discarded) produces exactly one overlay
per monitor whose creation attempt succeeds, each positioned at that
monitor's device-pixel origin and given logical size equal to the monitor's
device size divided by the maximum of its scale factor and 0.1, plus one
logical pixel of rounding pad. -/
theorem show_rest_overlay_per_monitor (env : OverlayEnv) (s : AppState)
    (remaining : Nat) (hd ms : String)
    (hsucc : ∃ i, i < env.monitors.length ∧ env.createOk i = true) :
    (∀ s2 : AppState, (show_rest_overlay env s2 remaining hd ms).overlay_windows
      = (show_rest_overlay env s remaining hd ms).overlay_windows) ∧
    (show_rest_overlay env s remaining hd ms).overlay_windows.map (fun e => e.monitor)
      = ((List.enumFrom 0 env.monitors).filter (fun p => env.createOk p.fst)).map
          Prod.snd ∧
    ∀ e ∈ (show_rest_overlay env s remaining hd ms).overlay_windows,
      e.monitor ∈ env.monitors ∧
      e.window.pos_x = e.monitor.x ∧
      e.window.pos_y = e.monitor.y ∧
      e.window.logical_width
        = (e.monitor.width : ℚ) / max e.monitor.scale_factor (1 / 10) + 1 ∧
      e.window.logical_height
        = (e.monitor.height : ℚ) / max e.monitor.scale_factor (1 / 10) + 1 ∧
      e.window.visible = true := by
  refine ⟨fun s2 => rfl, show_overlay_monitors_of_success env s remaining hd ms hsucc, ?_⟩
  intro e he
  rw [show_overlay_windows_of_success env s remaining hd ms hsucc] at he
  obtain ⟨e0, he0, heq⟩ := List.mem_map.mp he
  obtain ⟨hm, _⟩ := build_entries_mem env.createOk env.monitors 0 e0 he0
  subst heq
  simp [present_window_eq, present_monitor_eq, hm]

/-- C3 witness: three monitors with distinct origins, sizes and scale
factors, all creations succeeding, yield exactly three overlay instances,
one per monitor. -/
theorem show_rest_overlay_per_monitor_witness :
    (∃ i, i < threeMonitorEnv.monitors.length ∧ threeMonitorEnv.createOk i = true) ∧
    (show_rest_overlay threeMonitorEnv (AppState.default 0) 20000 "h" "m").overlay_windows.map
      (fun e => e.monitor) = [monitorA, monitorB, monitorC] ∧
    (show_rest_overlay threeMonitorEnv
      (AppState.default 0) 20000 "h" "m").overlay_windows.length = 3 := by
  have hsucc : ∃ i, i < threeMonitorEnv.monitors.length ∧ threeMonitorEnv.createOk i = true :=
    ⟨0, by simp [threeMonitorEnv], rfl⟩
  have h := (show_rest_overlay_per_monitor threeMonitorEnv
    (AppState.default 0) 20000 "h" "m" hsucc).2.1
  have hmap : (show_rest_overlay threeMonitorEnv
      (AppState.default 0) 20000 "h" "m").overlay_windows.map (fun e => e.monitor)
      = [monitorA, monitorB, monitorC] := by
    rw [h]
    simp [threeMonitorEnv, List.enumFrom]
  refine ⟨hsucc, hmap, ?_⟩
  have hlen := congrArg List.length hmap
  simpa using hlen

/-- C3 counterexample: a monitor with scale factor 1/20 (below the 0.1
clamp) and a successful creation yields an overlay of logical width
1000 / 0.1 + 1 = 10001, not the claimed 1000 / (1/20) + 1 = 20001. -/
theorem show_rest_overlay_scale_clamp_cex :
    ((show_rest_overlay tinyScaleEnv (AppState.default 0) 20000 "h" "m").overlay_windows.map
      (fun e => e.window.logical_width)) = [10001] ∧
    ((10001 : ℚ) ≠ (tinyScaleMonitor.width : ℚ) / tinyScaleMonitor.scale_factor + 1) := by
  constructor
  · simp only [show_rest_overlay, build_overlay_entries, tinyScaleEnv, tinyScaleMonitor]
    norm_num [fit_overlay_to_monitor, present_overlay_entry, OverlaySurface.new, max_def]
  · norm_num [tinyScaleMonitor]

/-- C4 (amended): with zero enumerated monitors, `show_rest_overlay`
attempts exactly one fallback overlay fitted to the best-effort
virtual-desktop rectangle; when creation fails for every enumerated
monitor, it attempts exactly one fallback overlay fitted to the first
enumerated monitor (not the virtual-desktop rectangle); an individual
creation failure merely skips that monitor and is never fatal: when any
attempt succeeds, every successfully created monitor still receives its
overlay. -/
theorem show_rest_overlay_fallback_behavior (env : OverlayEnv) (s : AppState)
    (remaining : Nat) (hd ms : String) :
    (env.monitors = [] →
      (show_rest_overlay env s remaining hd ms).overlay_windows.map (fun e => e.monitor)
        = if env.createOk 0 then [virtual_screen_rect env] else []) ∧
    ((∀ i, i < env.monitors.length → env.createOk i = false) →
      (show_rest_overlay env s remaining hd ms).overlay_windows.map (fun e => e.monitor)
        = if env.createOk env.monitors.length
          then [env.monitors.headD (virtual_screen_rect env)]
          else []) ∧
    ((∃ i, i < env.monitors.length ∧ env.createOk i = true) →
      (show_rest_overlay env s remaining hd ms).overlay_windows.map (fun e => e.monitor)
        = ((List.enumFrom 0 env.monitors).filter (fun p => env.createOk p.fst)).map
            Prod.snd) := by
  have hallfail : (∀ i, i < env.monitors.length → env.createOk i = false) →
      (show_rest_overlay env s remaining hd ms).overlay_windows.map (fun e => e.monitor)
        = if env.createOk env.monitors.length
          then [env.monitors.headD (virtual_screen_rect env)]
          else [] := by
    intro hfail
    rw [show_overlay_windows_all_fail env s remaining hd ms hfail]
    by_cases h : env.createOk env.monitors.length = true <;>
      simp [h, present_monitor_eq, fit_monitor_eq]
  refine ⟨?_, hallfail, fun hsucc =>
    show_overlay_monitors_of_success env s remaining hd ms hsucc⟩
  intro hnil
  have hfail : ∀ i, i < env.monitors.length → env.createOk i = false := by
    intro i hi
    rw [hnil] at hi
    simp at hi
  rw [hallfail hfail, hnil]
  rfl

/-- C4 witness: one monitor whose creation fails while the fallback attempt
succeeds yields exactly one overlay fitted to that monitor; with zero
monitors and a failing fallback attempt, zero overlays result. -/
theorem show_rest_overlay_fallback_behavior_witness :
    (∀ i, i < failFirstEnv.monitors.length → failFirstEnv.createOk i = false) ∧
    (show_rest_overlay failFirstEnv (AppState.default 0) 20000 "h" "m").overlay_windows.map
      (fun e => e.monitor) = [monitorA] ∧
    quietTickEnv.overlay.monitors = [] ∧
    (show_rest_overlay quietTickEnv.overlay
      (AppState.default 0) 20000 "h" "m").overlay_windows.map (fun e => e.monitor) = [] := by
  have h1 := (show_rest_overlay_fallback_behavior failFirstEnv
    (AppState.default 0) 20000 "h" "m").2.1
  have h2 := (show_rest_overlay_fallback_behavior quietTickEnv.overlay
    (AppState.default 0) 20000 "h" "m").1
  refine ⟨by decide, ?_, rfl, ?_⟩
  · rw [h1 (by decide)]
    simp [failFirstEnv]
  · rw [h2 rfl]
    simp [quietTickEnv]

/-- C4 counterexample: every per-monitor creation fails, yet the single
fallback overlay is fitted to the first enumerated monitor, which differs
from the best-effort virtual-desktop rectangle. -/
theorem show_rest_overlay_fallback_cex :
    (∀ i, i < failFirstEnv.monitors.length → failFirstEnv.createOk i = false) ∧
    ((show_rest_overlay failFirstEnv (AppState.default 0) 20000 "h" "m").overlay_windows.map
      (fun e => e.monitor)) = [monitorA] ∧
    monitorA ≠ virtual_screen_rect failFirstEnv := by
  refine ⟨by decide, ?_, ?_⟩
  · rw [show_overlay_windows_all_fail failFirstEnv (AppState.default 0) 20000 "h" "m"
      (by decide)]
    simp [failFirstEnv, present_monitor_eq, fit_monitor_eq]
  · intro hcontra
    have hx : monitorA.x = (virtual_screen_rect failFirstEnv).x := by rw [hcontra]
    simp [monitorA, virtual_screen_rect, failFirstEnv] at hx


theorem update_mode_eq (s : AppState) (r : Nat) :
    (update_rest_overlay s r).current_mode = s.current_mode := by
  unfold update_rest_overlay
  by_cases h : s.overlay_windows.isEmpty = true <;> simp [h]

theorem timer_tick_inv_cases (env : TickEnv) (now : Nat) (s : AppState)
    (hw : (timer_tick env now s).current_mode = Mode.Work) :
    (timer_tick env now s).overlay_windows = [] ∨
    ((timer_tick env now s).overlay_windows = s.overlay_windows ∧
      s.current_mode = Mode.Work) := by
  unfold timer_tick at hw ⊢
  by_cases hp : s.is_paused = true
  · simp only [hp, if_true] at hw ⊢
    exact Or.inr ⟨trivial, hw⟩
  · have hp' : s.is_paused = false := by simpa using hp
    simp only [hp', Bool.false_eq_true, if_false] at hw ⊢
    rcases hm : s.current_mode with _ | _
    · by_cases hl : s.work_duration ≤ now - s.start_time
      · simp only [hm, hl, if_true] at hw
        exact absurd hw (by simp [show_rest_overlay])
      · simp only [hm, hl, if_false]
        exact Or.inr ⟨rfl, trivial⟩
    · by_cases hl : s.rest_duration ≤ now - s.start_time
      · simp only [hm, hl, if_true]
        exact Or.inl rfl
      · simp only [hm, hl, if_false, ite_true] at hw
        rw [update_mode_eq] at hw
        simp at hw

theorem apply_work_minutes_fields (now : Nat) (minutes : Int) (s : AppState) :
    (on_apply_work_minutes now minutes s).current_mode = s.current_mode ∧
    (on_apply_work_minutes now minutes s).overlay_windows = s.overlay_windows := by
  unfold on_apply_work_minutes
  by_cases hm : s.current_mode = Mode.Work <;> simp [hm]

theorem step_preserves_overlay_inv (s : AppState) (e : Event)
    (h : s.current_mode = Mode.Work → s.overlay_windows = []) :
    (step s e).current_mode = Mode.Work → (step s e).overlay_windows = [] := by
  cases e with
  | tick env now =>
    show (timer_tick env now s).current_mode = Mode.Work →
      (timer_tick env now s).overlay_windows = []
    intro hw
    rcases timer_tick_inv_cases env now s hw with h1 | ⟨h1, h2⟩
    · exact h1
    · rw [h1]
      exact h h2
  | toggleTimer => exact h
  | secondaryAction now =>
    show (on_secondary_action now s).current_mode = Mode.Work →
      (on_secondary_action now s).overlay_windows = []
    unfold on_secondary_action
    rcases hm : s.current_mode with _ | _
    · simp only [hm]
      intro _
      exact h hm
    · simp only [hm]
      intro _
      rfl
  | applyWorkMinutes now minutes =>
    show (on_apply_work_minutes now minutes s).current_mode = Mode.Work →
      (on_apply_work_minutes now minutes s).overlay_windows = []
    intro hw
    rw [(apply_work_minutes_fields now minutes s).1] at hw
    rw [(apply_work_minutes_fields now minutes s).2]
    exact h hw
  | applyRestSeconds seconds => exact h
  | applyWaterInterval interval => exact h
  | applyWalkInterval interval => exact h
  | startWindowDrag wp p => exact h
  | endWindowDrag => exact h
  | minimizeToTray => exact h
  | trayShowWindow => exact h

theorem run_preserves_overlay_inv (evs : List Event) :
    ∀ s : AppState, (s.current_mode = Mode.Work → s.overlay_windows = []) →
      (run s evs).current_mode = Mode.Work → (run s evs).overlay_windows = [] := by
  induction evs with
  | nil => intro s h; exact h
  | cons e rest ih =>
    intro s h
    exact ih (step s e) (step_preserves_overlay_inv s e h)

/-- C9: in every state reachable from the initial state by any sequence of
clock ticks and user actions, live overlay instances exist only while
`mode = Rest`: whenever `mode = Work` the overlay set is empty. -/
theorem overlays_only_while_resting (now0 : Nat) (evs : List Event)
    (hw : (run (AppState.default now0) evs).current_mode = Mode.Work) :
    (run (AppState.default now0) evs).overlay_windows = [] :=
  run_preserves_overlay_inv evs (AppState.default now0) (fun _ => rfl) hw

/-- C9 witness: after a tick that enters Rest (building an overlay) and a
manual skip back to Work, the reached state is in Work mode with zero live
overlays. -/
theorem overlays_only_while_resting_witness :
    (run (AppState.default 0)
      [Event.tick oneMonitorTickEnv 1200000, Event.secondaryAction 1200100]).current_mode
      = Mode.Work ∧
    (run (AppState.default 0)
      [Event.tick oneMonitorTickEnv 1200000, Event.secondaryAction 1200100]).overlay_windows
      = [] :=
  ⟨rfl, overlays_only_while_resting 0
    [Event.tick oneMonitorTickEnv 1200000, Event.secondaryAction 1200100] rfl⟩

end AreYouBlind
